import Mathlib

/-!
Shallow embedding of the door-access authorization subsystem of the hotel
backend (admin.service.ts, room.service.ts, door router, app.ts), together
with reference definitions taken from the specification, and theorems
settling the specification claims.

Machine integers are modelled as `Nat`/`Int` with explicit reductions
modulo `2 ^ 32` where JavaScript coerces to 32-bit integers.  Byte strings
are `List Nat` with every element below 256.  Fallible code returns
`Except`.
-/

/-! ## JavaScript numeric primitives -/

/-- The modulus of 32-bit words, `2 ^ 32`. -/
def w32 : Nat := 4294967296

/-- JavaScript `ToInt32`: reduce an integer into `[-2^31, 2^31)`, as applied
by every JS bitwise operator. -/
def toInt32 (c : Int) : Int :=
  let m := c.emod 4294967296
  if m < 2147483648 then m else m - 4294967296

/-! ## SHA-1 (FIPS 180, as computed by node crypto for the HMAC) -/

/-- Rotate a 32-bit word left by `n` bits. -/
def rotl (n x : Nat) : Nat := ((x <<< n) % w32) ||| (x >>> (32 - n))

/-- The SHA-1 round function: choice, parity, majority, parity. -/
def sha1F (i b c d : Nat) : Nat :=
  if i < 20 then (b &&& c) ||| ((b ^^^ 4294967295) &&& d)
  else if i < 40 then (b ^^^ c) ^^^ d
  else if i < 60 then ((b &&& c) ||| (b &&& d)) ||| (c &&& d)
  else (b ^^^ c) ^^^ d

/-- The SHA-1 round constants. -/
def sha1K (i : Nat) : Nat :=
  if i < 20 then 1518500249
  else if i < 40 then 1859775393
  else if i < 60 then 2400959708
  else 3395469782

/-- One pass of the 80 SHA-1 rounds over the message schedule. -/
def sha1Rounds : Nat → List Nat → Nat × Nat × Nat × Nat × Nat → Nat × Nat × Nat × Nat × Nat
  | _, [], s => s
  | i, word :: ws, (a, b, c, d, e) =>
    let t := (rotl 5 a + sha1F i b c d + e + sha1K i + word) % w32
    sha1Rounds (i + 1) ws (t, a, rotl 30 b, c, d)

/-- Extend the 16 block words by `fuel` further schedule words; the
accumulator holds the words most recent first. -/
def sha1ExtendAux : Nat → List Nat → List Nat
  | 0, acc => acc
  | k + 1, acc =>
    let word := rotl 1 (((acc.getD 2 0) ^^^ (acc.getD 7 0)) ^^^ ((acc.getD 13 0) ^^^ (acc.getD 15 0)))
    sha1ExtendAux k (word :: acc)

/-- The 80-word message schedule of one 16-word block. -/
def sha1Schedule (block : List Nat) : List Nat :=
  (sha1ExtendAux 64 block.reverse).reverse

/-- Compress one 64-byte block into the running hash state. -/
def sha1Compress (h : Nat × Nat × Nat × Nat × Nat) (block : List Nat) :
    Nat × Nat × Nat × Nat × Nat :=
  let (h0, h1, h2, h3, h4) := h
  let (a, b, c, d, e) := sha1Rounds 0 (sha1Schedule block) (h0, h1, h2, h3, h4)
  ((h0 + a) % w32, (h1 + b) % w32, (h2 + c) % w32, (h3 + d) % w32, (h4 + e) % w32)

/-- Group a byte list into big-endian 32-bit words. -/
def bytesToWordsBE : List Nat → List Nat
  | a :: b :: c :: d :: rest => (((a * 256 + b) * 256 + c) * 256 + d) :: bytesToWordsBE rest
  | _ => []

/-- Big-endian byte representation of `v` on `n` bytes. -/
def natToBytesBE : Nat → Nat → List Nat
  | 0, _ => []
  | n + 1, v => natToBytesBE n (v / 256) ++ [v % 256]

/-- MD-strengthening padding: append `0x80`, zeros, and the 64-bit
big-endian bit length, up to a multiple of 64 bytes. -/
def sha1Pad (msg : List Nat) : List Nat :=
  let z := (64 - (msg.length + 9) % 64) % 64
  msg ++ 128 :: (List.replicate z 0 ++ natToBytesBE 8 (8 * msg.length))

/-- Fold the compression function over `n` consecutive 16-word blocks. -/
def sha1Blocks : Nat → List Nat → Nat × Nat × Nat × Nat × Nat → Nat × Nat × Nat × Nat × Nat
  | 0, _, h => h
  | n + 1, ws, h => sha1Blocks n (ws.drop 16) (sha1Compress h (ws.take 16))

/-- The SHA-1 digest (20 bytes) of a byte message. -/
def sha1 (msg : List Nat) : List Nat :=
  let ws := bytesToWordsBE (sha1Pad msg)
  let (h0, h1, h2, h3, h4) :=
    sha1Blocks (ws.length / 16) ws (1732584193, 4023233417, 2562383102, 271733878, 3285377520)
  natToBytesBE 4 h0 ++ natToBytesBE 4 h1 ++ natToBytesBE 4 h2 ++ natToBytesBE 4 h3 ++ natToBytesBE 4 h4

/-- HMAC-SHA1 (RFC 2104) with byte-list key and message, block size 64. -/
def hmacSha1 (key msg : List Nat) : List Nat :=
  let k0 := if 64 < key.length then sha1 key else key
  let kp := k0 ++ List.replicate (64 - k0.length) 0
  sha1 ((kp.map fun b => b ^^^ 92) ++ sha1 ((kp.map fun b => b ^^^ 54) ++ msg))

/-! ## String byte codecs: UTF-8 and the forgiving base64 of node Buffer -/

/-- UTF-8 encoding of a single code point. -/
def utf8Encode (c : Nat) : List Nat :=
  if c < 128 then [c]
  else if c < 2048 then [192 + c / 64, 128 + c % 64]
  else if c < 65536 then [224 + c / 4096, 128 + (c / 64) % 64, 128 + c % 64]
  else [240 + c / 262144, 128 + (c / 4096) % 64, 128 + (c / 64) % 64, 128 + c % 64]

/-- The UTF-8 byte sequence of a string. -/
def utf8Bytes (s : String) : List Nat :=
  s.data.foldr (fun c acc => utf8Encode c.toNat ++ acc) []

/-- Value of one base64 alphabet character, `none` for other characters. -/
def b64Val (c : Char) : Option Nat :=
  if 'A' ≤ c ∧ c ≤ 'Z' then some (c.toNat - 65)
  else if 'a' ≤ c ∧ c ≤ 'z' then some (c.toNat - 71)
  else if '0' ≤ c ∧ c ≤ '9' then some (c.toNat + 4)
  else if c = '+' then some 62
  else if c = '/' then some 63
  else none

/-- Reassemble 6-bit groups into bytes: 4 groups give 3 bytes, a trailing
group of 3 gives 2 bytes, of 2 gives 1 byte, and a lone group is dropped. -/
def b64Groups : List Nat → List Nat
  | a :: b :: c :: d :: rest =>
    (a * 4 + b / 16) :: ((b % 16) * 16 + c / 4) :: ((c % 4) * 64 + d) :: b64Groups rest
  | [a, b, c] => [a * 4 + b / 16, (b % 16) * 16 + c / 4]
  | [a, b] => [a * 4 + b / 16]
  | _ => []

/-- Forgiving base64 decoding as performed by `Buffer.from(s, 'base64')`:
characters outside the alphabet are skipped, an incomplete trailing
quantum yields as many whole bytes as it determines. -/
def b64Decode (s : String) : List Nat := b64Groups (s.data.filterMap b64Val)

/-! ## admin.service.ts: the code generator -/

/-- The 8-byte counter buffer as filled by the loop in `generateHOTP`:
each step stores `counter & 0xff` and shifts with `counter >> 8`, both of
which coerce the counter through JavaScript `ToInt32`. -/
def counterBytesJSAux : Nat → Int → List Nat → List Nat
  | 0, _, acc => acc
  | i + 1, counter, acc =>
    let c32 := toInt32 counter
    counterBytesJSAux i (Int.fdiv c32 256) ((c32.emod 256).toNat :: acc)

/-- The counter buffer written by `generateHOTP` for a given counter. -/
def counterBytesJS (counter : Int) : List Nat := counterBytesJSAux 8 counter []

/-- Embeds `dynamicTruncationFn` of admin.service.ts: offset is the low
nibble of the last digest byte; four bytes from the offset are assembled
big-endian with the top bit of the first masked to 7 bits. -/
def dynamicTruncationFn (hmacValue : List Nat) : Nat :=
  let offset := (hmacValue.getD (hmacValue.length - 1) 0) &&& 15
  ((((hmacValue.getD offset 0) &&& 127) <<< 24) |||
    (((hmacValue.getD (offset + 1) 0) &&& 255) <<< 16)) |||
  ((((hmacValue.getD (offset + 2) 0) &&& 255) <<< 8) |||
    ((hmacValue.getD (offset + 3) 0) &&& 255))

/-- Embeds `generateHOTP` of admin.service.ts: the secret string is decoded
as base64, the counter is serialized by the JS loop, and the truncated
HMAC-SHA1 is reduced modulo `10 ^ 6`. -/
def generateHOTP (secret : String) (counter : Int) : Nat :=
  let decodedSecret := b64Decode secret
  let buffer := counterBytesJS counter
  let code := dynamicTruncationFn (hmacSha1 decodedSecret buffer)
  code % 1000000

/-- Embeds `generateTOTP` of admin.service.ts; the current time is passed
explicitly in milliseconds, the counter is `floor(nowMs / 1000) + window`. -/
def generateTOTP (nowMs : Nat) (secret : String) (window : Int) : Nat :=
  let counter : Int := Int.ofNat (nowMs / 1000)
  generateHOTP secret (counter + window)

/-! ## Reference definitions transcribed from the specification claims -/

/-- Reference dynamic truncation as the claims word it: the low nibble of
the last digest byte is an offset, four bytes there are read as one
big-endian 32-bit value whose top bit is masked off. -/
def refTruncate (digest : List Nat) : Nat :=
  let o := (digest.getD (digest.length - 1) 0) % 16
  ((digest.getD o 0) * 16777216 + (digest.getD (o + 1) 0) * 65536 +
    (digest.getD (o + 2) 0) * 256 + digest.getD (o + 3) 0) % 2147483648

/-- Reference RFC-4226-style HOTP over an explicit key byte sequence: the
counter as an 8-byte big-endian unsigned integer, HMAC-SHA1, dynamic
truncation, reduction modulo `10 ^ 6`. -/
def refHOTP (key : List Nat) (counter : Nat) : Nat :=
  refTruncate (hmacSha1 key (natToBytesBE 8 counter)) % 1000000

/-- The claim's reference definition keyed by the secret string, that is by
the byte sequence of the secret itself. -/
def refHOTPStr (secret : String) (counter : Nat) : Nat :=
  refHOTP (utf8Bytes secret) counter

/-! ## Errors of error/HttpError.ts as observed at the call sites -/

/-- Client errors thrown by the services: `BadRequestError`,
`ForbiddenError`, and the runtime type error raised by reading a field of
an absent record. -/
inductive HttpError where
  | badRequest (msg : String)
  | forbidden (msg : String)
  | typeError
deriving DecidableEq, Repr

/-! ## admin.service.ts: door lock input and the codec -/

/-- Modelled from the spec: the staff record of models/staff (not among the
sources); only the identifier and the password hash are consumed by the
collaborator interface of section 6. -/
structure Staff where
  id : String
  password : String
deriving DecidableEq, Repr

/-- Modelled from the spec: `adminRepository.findStaffById`, a staff lookup
by ID (admin.repository.ts delegates to the database). -/
def findStaffById (db : List Staff) (staffID : String) : Option Staff :=
  db.find? fun s => s.id == staffID

/-- The payload record of door.interface.ts. -/
structure DoorLockCodeEncodeInput where
  userID : String
  roomID : String
  nationalID : String
  secret : String
deriving DecidableEq, Repr

/-- JavaScript `String.prototype.padStart` with a single pad character. -/
def padStart (s : String) (n : Nat) (c : Char) : String :=
  ⟨List.replicate (n - s.data.length) c ++ s.data⟩

/-- Embeds `getDoorLockInput` of admin.service.ts: look the staff up, fail
on absence, then build the payload from the fixed placeholder room and
national IDs and the 300-window TOTP of the concatenated triple. -/
def getDoorLockInput (nowMs : Nat) (db : List Staff) (staffID : String) :
    Except HttpError DoorLockCodeEncodeInput :=
  match findStaffById db staffID with
  | none => .error (.badRequest "Request failed. Staff ID is invalid.")
  | some _ =>
    let dummyRoomID := "9999"
    let dummyStaffNationalID := "1234567890123"
    let secret := Nat.repr (generateTOTP nowMs (staffID ++ dummyRoomID ++ dummyStaffNationalID) 300)
    .ok { userID := staffID, roomID := dummyRoomID, nationalID := dummyStaffNationalID,
          secret := padStart secret 6 '0' }

/-- Embeds `encode` of admin.service.ts: join the four payload fields with
the pipe delimiter. -/
def encode (input : DoorLockCodeEncodeInput) : String :=
  input.userID ++ "|" ++ input.roomID ++ "|" ++ input.nationalID ++ "|" ++ input.secret

/-- Split a character list on the pipe delimiter, accumulating the current
field in reverse. -/
def splitPipeAux : List Char → List Char → List String
  | [], acc => [⟨acc.reverse⟩]
  | c :: rest, acc =>
    if c = '|' then ⟨acc.reverse⟩ :: splitPipeAux rest []
    else splitPipeAux rest (c :: acc)

/-- Split a string on the pipe delimiter. -/
def splitPipe (s : String) : List String := splitPipeAux s.data []

/-- Modelled from the spec: `decode` of the door lock code service
(door/door.service.ts is not among the sources): split the payload on the
delimiter into exactly four fields, fail with a decoding error otherwise. -/
def decode (payload : String) : Except HttpError DoorLockCodeEncodeInput :=
  match splitPipe payload with
  | [u, r, n, s] => .ok { userID := u, roomID := r, nationalID := n, secret := s }
  | _ => .error (.badRequest "Invalid code.")

/-- Modelled from the spec: `verify` of the door lock code service
(door/door.service.ts is not among the sources): decode the payload,
recompute the expected code for the current instant only (window offset 0)
and compare it with the presented one. -/
def verify (nowMs : Nat) (encoded : String) : Bool :=
  match decode encoded with
  | .error _ => false
  | .ok p =>
    padStart (Nat.repr (generateTOTP nowMs (p.userID ++ p.roomID ++ p.nationalID) 0)) 6 '0'
      == p.secret

/-- Modelled from the spec: `DoorLockCodeService.getDoorLockInput` as called
by the generate route with a supplied roomID; the observed wiring ignores
the roomID query parameter and substitutes the fixed placeholder, exactly
as `getDoorLockInput` of admin.service.ts, which takes no room argument. -/
def serviceGetDoorLockInput (nowMs : Nat) (db : List Staff) (userID roomID : String) :
    Except HttpError DoorLockCodeEncodeInput :=
  getDoorLockInput nowMs db userID

/-- The GET /door/generate handler of the door router: obtain the door lock
input for the query parameters and encode it. -/
def generateRoute (nowMs : Nat) (db : List Staff) (userID roomID : String) :
    Except HttpError String :=
  (serviceGetDoorLockInput nowMs db userID roomID).map encode

/-! ## room.service.ts: the room permission evaluator -/

/-- A room as carried by a reservation; only the identifier is consumed. -/
structure Room where
  id : Int
deriving DecidableEq, Repr

/-- A reservation: owner, check-in window and assigned rooms
(models/reservation is not among the sources; fields as consumed by
room.service.ts). -/
structure Reservation where
  id : String
  guest_id : String
  check_in : Int
  check_out : Int
  rooms : List Room
deriving DecidableEq, Repr

/-- A room grant of models/guestReservationRoom: one (grantee email,
reservation, room) triple. -/
structure GuestReservationRoom where
  email : String
  reservation_id : String
  room_id : Int
deriving DecidableEq, Repr

/-- The data accessed by the room repository: the reservation table and the
grant table. -/
structure RoomDB where
  reservations : List Reservation
  grants : List GuestReservationRoom
deriving DecidableEq, Repr

/-- Modelled from the spec: `roomRepository.findReservationById`, lookup of
a reservation by its identifier. -/
def findReservationById (db : RoomDB) (reservationID : String) : Option Reservation :=
  db.reservations.find? fun r => r.id == reservationID

/-- Modelled from the spec: `roomRepository.findReservationIn` finds a
reservation where the guest, by subject ID or by shared-access email, has
an active check-in window covering the evaluation date. -/
def findReservationIn (db : RoomDB) (guestID email : String) (date : Int) : Option Reservation :=
  db.reservations.find? fun r =>
    (r.guest_id == guestID
      || db.grants.any fun g => g.email == email && g.reservation_id == r.id)
    && decide (r.check_in ≤ date) && decide (date ≤ r.check_out)

/-- Modelled from the spec: `roomRepository.findGuestRoomReservation`,
lookup of a grant by grantee email and reservation. -/
def findGuestRoomReservation (db : RoomDB) (email reservationID : String) :
    Option GuestReservationRoom :=
  db.grants.find? fun g => g.email == email && g.reservation_id == reservationID

/-- Modelled from the spec: `reservationRepository.getReservation`, lookup
of a reservation with its room set. -/
def getReservation (db : RoomDB) (reservationID : String) : Option Reservation :=
  findReservationById db reservationID

/-- Embeds `checkIsReservationOwner` of room.service.ts: a missing
reservation is a bad request, otherwise compare the owner. -/
def checkIsReservationOwner (db : RoomDB) (guestID reservationID : String) :
    Except HttpError Bool :=
  match findReservationById db reservationID with
  | none => .error (.badRequest "Invalid reservation id.")
  | some reservation => .ok (reservation.guest_id == guestID)

/-- Embeds `shareRoom` of room.service.ts, with the grant store state passed
explicitly: verify ownership, then create the grant
(`createGuestRoomReservation` appends it to the grant table). -/
def shareRoom (db : RoomDB) (ownerID email reservationID : String) (roomID : Int) :
    Except HttpError GuestReservationRoom × RoomDB :=
  match checkIsReservationOwner db ownerID reservationID with
  | .error e => (.error e, db)
  | .ok isOwner =>
    if !isOwner then
      (.error (.forbidden "Can not share room. You did not make this reservation."), db)
    else
      let created : GuestReservationRoom :=
        { email := email, reservation_id := reservationID, room_id := roomID }
      (.ok created, { db with grants := db.grants ++ [created] })

/-- Embeds `allRoomsInReservation` of room.service.ts: the identifiers of
the rooms of the reservation; reading the rooms of an absent reservation
is the runtime type error. -/
def allRoomsInReservation (db : RoomDB) (reservationID : String) :
    Except HttpError (List Int) :=
  match getReservation db reservationID with
  | none => .error .typeError
  | some reservation => .ok (reservation.rooms.map Room.id)

/-- Embeds `roomShared` of room.service.ts: the room of the grant for the
email and reservation; reading `room_id` of an absent grant is the runtime
type error. -/
def roomShared (db : RoomDB) (email reservationID : String) : Except HttpError Int :=
  match findGuestRoomReservation db email reservationID with
  | none => .error .typeError
  | some shared => .ok shared.room_id

/-- Embeds `hasPermissionToEnterRoom` of room.service.ts: find the active
reservation, fail with the not-checked-in error on absence; an owner may
enter a room of the reservation's room set, a non-owner only the single
shared room. -/
def hasPermissionToEnterRoom (db : RoomDB) (guestID email : String) (date : Int)
    (roomID : Int) : Except HttpError Bool :=
  match findReservationIn db guestID email date with
  | none => .error (.badRequest "Not checked in.")
  | some reservation =>
    if reservation.guest_id == guestID then
      (allRoomsInReservation db reservation.id).map fun rooms => rooms.contains roomID
    else
      (roomShared db email reservation.id).map fun room => room == roomID

/-! ## app.ts: the actuation gate of the door routes -/

/-- Modelled from the spec: the errors with which the three guard
middlewares fail closed (middlewares/ is not among the sources). -/
inductive GateError where
  | unauthorized
  | notInRoom
  | notCheckedIn
deriving DecidableEq, Repr

deriving instance DecidableEq for Except

/-- Outcome of one door actuation request: the HTTP response and the
messages published on the channel. -/
structure DoorRouteResult where
  response : Except GateError String
  published : List (String × String)
deriving DecidableEq, Repr

/-- Embeds the door actuation routes of app.ts under the express middleware
semantics: the guards run in the fixed order authenticated, in-room,
checked-in, a failing guard responds with its error and the handler is
never reached; only the final handler publishes the command on the global
door topic and answers the fixed body. -/
def doorActuationRoute {α : Type} (isAuth isInRm isChk : α → Bool)
    (command : String) (req : α) : DoorRouteResult :=
  if !isAuth req then { response := .error .unauthorized, published := [] }
  else if !isInRm req then { response := .error .notInRoom, published := [] }
  else if !isChk req then { response := .error .notCheckedIn, published := [] }
  else { response := .ok "eyy", published := [("door", command)] }

/-! ## Helper lemmas -/

theorem natToBytesBE_length (n : Nat) : ∀ v : Nat, (natToBytesBE n v).length = n := by
  induction n with
  | zero => intro v; rfl
  | succ n ih => intro v; simp [natToBytesBE, ih]

theorem natToBytesBE_lt (n : Nat) : ∀ (v : Nat), ∀ b ∈ natToBytesBE n v, b < 256 := by
  induction n with
  | zero => intro v b hb; simp [natToBytesBE] at hb
  | succ n ih =>
    intro v b hb
    simp only [natToBytesBE, List.mem_append, List.mem_singleton] at hb
    rcases hb with h | h
    · exact ih _ b h
    · omega

theorem sha1_length (msg : List Nat) : (sha1 msg).length = 20 := by
  simp [sha1, natToBytesBE_length]

theorem sha1_lt (msg : List Nat) : ∀ b ∈ sha1 msg, b < 256 := by
  intro b hb
  simp only [sha1, List.mem_append] at hb
  rcases hb with ((((h | h) | h) | h) | h) <;> exact natToBytesBE_lt 4 _ b h

theorem getD_lt_256 (l : List Nat) (hl : ∀ b ∈ l, b < 256) :
    ∀ (i d : Nat), d < 256 → l.getD i d < 256 := by
  induction l with
  | nil => intro i d hd; simpa [List.getD] using hd
  | cons x xs ih =>
    intro i d hd
    cases i with
    | zero => exact hl x (by simp)
    | succ n => exact ih (fun b hb => hl b (by simp [hb])) n d hd

theorem or_shift_bytes (a b c d : Nat) (ha : a < 256) (hb : b < 256) (hc : c < 256)
    (hd : d < 256) :
    (((a &&& 127) <<< 24) ||| ((b &&& 255) <<< 16)) ||| (((c &&& 255) <<< 8) ||| (d &&& 255))
      = (a * 16777216 + b * 65536 + c * 256 + d) % 2147483648 := by
  have h127 : a &&& 127 = a % 128 := by
    simpa using Nat.and_pow_two_sub_one_eq_mod a 7
  have hB : b &&& 255 = b := by
    simpa using Nat.and_pow_two_sub_one_of_lt_two_pow (show b < 2 ^ 8 by omega)
  have hC : c &&& 255 = c := by
    simpa using Nat.and_pow_two_sub_one_of_lt_two_pow (show c < 2 ^ 8 by omega)
  have hD : d &&& 255 = d := by
    simpa using Nat.and_pow_two_sub_one_of_lt_two_pow (show d < 2 ^ 8 by omega)
  rw [h127, hB, hC, hD, Nat.shiftLeft_eq, Nat.shiftLeft_eq, Nat.shiftLeft_eq, Nat.or_assoc]
  rw [show c * 2 ^ 8 = 2 ^ 8 * c from Nat.mul_comm _ _,
    ← Nat.mul_add_lt_is_or (show d < 2 ^ 8 by omega) c]
  rw [show b * 2 ^ 16 = 2 ^ 16 * b from Nat.mul_comm _ _,
    ← Nat.mul_add_lt_is_or (show 2 ^ 8 * c + d < 2 ^ 16 by omega) b]
  rw [show a % 128 * 2 ^ 24 = 2 ^ 24 * (a % 128) from Nat.mul_comm _ _,
    ← Nat.mul_add_lt_is_or (show 2 ^ 16 * b + (2 ^ 8 * c + d) < 2 ^ 24 by omega) (a % 128)]
  omega

theorem dynamicTruncationFn_eq_refTruncate (h : List Nat) (hlen : h.length = 20)
    (hb : ∀ b ∈ h, b < 256) : dynamicTruncationFn h = refTruncate h := by
  have hand15 : ∀ x : Nat, x &&& 15 = x % 16 := fun x => by
    simpa using Nat.and_pow_two_sub_one_eq_mod x 4
  have hoB : ∀ i : Nat, h.getD i 0 < 256 := fun i => getD_lt_256 h hb i 0 (by omega)
  simp only [dynamicTruncationFn, refTruncate, hlen, hand15]
  exact or_shift_bytes _ _ _ _ (hoB _) (hoB _) (hoB _) (hoB _)

theorem toInt32_ofNat (c : Nat) (h : c < 2147483648) : toInt32 (Int.ofNat c) = Int.ofNat c := by
  simp only [toInt32]
  rw [show (Int.ofNat c).emod 4294967296 = Int.ofNat (c % 4294967296) from rfl,
    Nat.mod_eq_of_lt (show c < 4294967296 by omega)]
  rw [if_pos (show Int.ofNat c < (2147483648 : Int) by rw [Int.ofNat_eq_coe]; omega)]

theorem counterBytesJSAux_eq_natToBytesBE (n : Nat) :
    ∀ (c : Nat) (acc : List Nat), c < 2147483648 →
      counterBytesJSAux n (Int.ofNat c) acc = natToBytesBE n c ++ acc := by
  induction n with
  | zero => intro c acc h; rfl
  | succ n ih =>
    intro c acc h
    have hfd : Int.fdiv (Int.ofNat c) 256 = Int.ofNat (c / 256) := by
      exact_mod_cast (Int.ofNat_fdiv c 256).symm
    show counterBytesJSAux n (Int.fdiv (toInt32 (Int.ofNat c)) 256)
        (((toInt32 (Int.ofNat c)).emod 256).toNat :: acc) = _
    rw [toInt32_ofNat c h, hfd,
      show ((Int.ofNat c).emod 256).toNat = c % 256 from rfl,
      ih (c / 256) _ (by omega)]
    simp [natToBytesBE]

theorem counterBytesJS_eq_natToBytesBE (c : Nat) (h : c < 2147483648) :
    counterBytesJS (Int.ofNat c) = natToBytesBE 8 c := by
  simpa using counterBytesJSAux_eq_natToBytesBE 8 c [] h

theorem hmacSha1_length (key msg : List Nat) : (hmacSha1 key msg).length = 20 := by
  simp only [hmacSha1]
  exact sha1_length _

theorem hmacSha1_lt (key msg : List Nat) : ∀ b ∈ hmacSha1 key msg, b < 256 := by
  simp only [hmacSha1]
  exact sha1_lt _

theorem generateHOTP_eq_refHOTP (secret : String) (c : Nat) (h : c < 2147483648) :
    generateHOTP secret (Int.ofNat c) = refHOTP (b64Decode secret) c := by
  simp only [generateHOTP, refHOTP]
  rw [counterBytesJS_eq_natToBytesBE c h,
    dynamicTruncationFn_eq_refTruncate _ (hmacSha1_length _ _) (hmacSha1_lt _ _)]

theorem splitPipeAux_no_pipe (a : List Char) : ∀ acc : List Char, '|' ∉ a →
    splitPipeAux a acc = [⟨acc.reverse ++ a⟩] := by
  induction a with
  | nil => intro acc h; simp [splitPipeAux]
  | cons c rest ih =>
    intro acc h
    have hc : ¬c = '|' := fun hh => h (by simp [hh])
    simp only [splitPipeAux, if_neg hc]
    simpa using ih (c :: acc) (fun hm => h (by simp [hm]))

theorem splitPipeAux_pipe (a : List Char) : ∀ (acc rest : List Char), '|' ∉ a →
    splitPipeAux (a ++ '|' :: rest) acc = ⟨acc.reverse ++ a⟩ :: splitPipeAux rest [] := by
  induction a with
  | nil => intro acc rest h; simp [splitPipeAux]
  | cons c tl ih =>
    intro acc rest h
    have hc : ¬c = '|' := fun hh => h (by simp [hh])
    simp only [List.cons_append, splitPipeAux, if_neg hc]
    simpa using ih (c :: acc) rest (fun hm => h (by simp [hm]))

theorem decode_encode (t : DoorLockCodeEncodeInput)
    (hu : '|' ∉ t.userID.data) (hr : '|' ∉ t.roomID.data)
    (hn : '|' ∉ t.nationalID.data) (hs : '|' ∉ t.secret.data) :
    decode (encode t) = .ok t := by
  have hdata : (t.userID ++ "|" ++ t.roomID ++ "|" ++ t.nationalID ++ "|" ++ t.secret).data
      = t.userID.data ++ '|' :: (t.roomID.data ++ '|' :: (t.nationalID.data ++ '|' :: t.secret.data)) := by
    simp [String.data_append]
  simp only [decode, encode, splitPipe, hdata]
  rw [splitPipeAux_pipe _ _ _ hu, splitPipeAux_pipe _ _ _ hr,
    splitPipeAux_pipe _ _ _ hn, splitPipeAux_no_pipe _ _ hs]
  rfl

theorem find?_id_of_nodup (l : List Reservation) (r : Reservation) (hm : r ∈ l)
    (hnd : (l.map Reservation.id).Nodup) :
    l.find? (fun x => x.id == r.id) = some r := by
  induction l with
  | nil => cases hm
  | cons x xs ih =>
    rcases List.mem_cons.mp hm with h | h
    · subst h
      exact List.find?_cons_of_pos _ (by simp)
    · rw [List.map_cons] at hnd
      have hnd' := List.nodup_cons.mp hnd
      by_cases hx : x.id = r.id
      · exact absurd (hx ▸ List.mem_map_of_mem Reservation.id h) hnd'.1
      · rw [List.find?_cons_of_neg _ (by simpa using hx)]
        exact ih h hnd'.2

/-! ## Claim theorems -/

/-- C1 (corrected): for every secret and every counter in [0, 2^31),
`generateHOTP` equals the RFC-4226-style reference definition keyed by the
forgiving base64 decoding of the secret (the code decodes the secret with
Buffer.from(secret, 'base64')), and the result always lies in [0, 999999];
it is deterministic in (secret, counter) as a pure function of them. -/
theorem generateHOTP_matches_reference (secret : String) (c : Nat) (h : c < 2147483648) :
    generateHOTP secret (Int.ofNat c) = refHOTP (b64Decode secret) c ∧
    generateHOTP secret (Int.ofNat c) < 1000000 :=
  ⟨generateHOTP_eq_refHOTP secret c h, Nat.mod_lt _ (by decide)⟩

/-- Witness for C1: the hypothesis holds at counter 0 and the theorem
applies to the base64 spelling of the RFC 4226 test key. -/
theorem generateHOTP_matches_reference_witness :
    (0 : Nat) < 2147483648 ∧
    (generateHOTP "MTIzNDU2Nzg5MDEyMzQ1Njc4OTA" (Int.ofNat 0)
        = refHOTP (b64Decode "MTIzNDU2Nzg5MDEyMzQ1Njc4OTA") 0 ∧
      generateHOTP "MTIzNDU2Nzg5MDEyMzQ1Njc4OTA" (Int.ofNat 0) < 1000000) :=
  ⟨by decide, generateHOTP_matches_reference "MTIzNDU2Nzg5MDEyMzQ1Njc4OTA" 0 (by decide)⟩

set_option maxRecDepth 10000 in
/-- Counterexample for C1 as frozen: the code does not equal the reference
keyed by the byte sequence of the secret itself (secret "A" decodes to an
empty base64 key), and the counter serialization diverges from the 8-byte
big-endian representation at counter 2^31 because of JavaScript 32-bit
coercion. -/
theorem generateHOTP_matches_reference_counterexample :
    generateHOTP "A" (Int.ofNat 0) ≠ refHOTPStr "A" 0 ∧
    generateHOTP "MTIzNDU2Nzg5MDEyMzQ1Njc4OTA" (Int.ofNat 2147483648)
      ≠ refHOTP (b64Decode "MTIzNDU2Nzg5MDEyMzQ1Njc4OTA") 2147483648 := by
  constructor
  · decide
  · decide

/-- C7 (corrected): the HMAC key used for code derivation is the forgiving
base64 decoding of the concatenation of the three identity fields, so the
same triple always regenerates the identical secret and code; within the
32-bit-safe counter range the code is the reference HOTP of that key. -/
theorem hotp_key_is_base64_of_triple (subjectID roomID documentID : String)
    (c : Nat) (h : c < 2147483648) :
    generateHOTP (subjectID ++ roomID ++ documentID) (Int.ofNat c)
      = refHOTP (b64Decode (subjectID ++ roomID ++ documentID)) c :=
  generateHOTP_eq_refHOTP _ c h

/-- Witness for C7 at the deployed placeholder triple and counter 0. -/
theorem hotp_key_is_base64_of_triple_witness :
    (0 : Nat) < 2147483648 ∧
    generateHOTP ("s1" ++ "9999" ++ "1234567890123") (Int.ofNat 0)
      = refHOTP (b64Decode ("s1" ++ "9999" ++ "1234567890123")) 0 :=
  ⟨by decide, hotp_key_is_base64_of_triple "s1" "9999" "1234567890123" 0 (by decide)⟩

set_option maxRecDepth 10000 in
/-- Counterexample for C7 as frozen: for the deployed placeholder triple the
base64-decoded key differs from the byte sequence of the concatenated
string, and the generated code differs from the one keyed by that byte
sequence. -/
theorem hotp_key_is_base64_of_triple_counterexample :
    b64Decode ("s1" ++ "9999" ++ "1234567890123")
      ≠ utf8Bytes ("s1" ++ "9999" ++ "1234567890123") ∧
    generateHOTP ("s1" ++ "9999" ++ "1234567890123") (Int.ofNat 0)
      ≠ refHOTP (utf8Bytes ("s1" ++ "9999" ++ "1234567890123")) 0 := by
  constructor
  · decide
  · decide

/-- C2: the room-entry decision of `hasPermissionToEnterRoom`: no active
reservation for the guest or shared email on the date fails with the
not-checked-in error; the owning guest gets true exactly for rooms of the
reservation's room set; a non-owner gets true exactly when the room equals
the single room shared with that email for that reservation. -/
theorem hasPermissionToEnterRoom_spec (db : RoomDB) (guestID email : String) (date : Int)
    (roomID : Int) :
    (findReservationIn db guestID email date = none →
      hasPermissionToEnterRoom db guestID email date roomID
        = .error (.badRequest "Not checked in.")) ∧
    (∀ r, findReservationIn db guestID email date = some r → r.guest_id = guestID →
      (db.reservations.map Reservation.id).Nodup →
      hasPermissionToEnterRoom db guestID email date roomID
        = .ok ((r.rooms.map Room.id).contains roomID)) ∧
    (∀ r, findReservationIn db guestID email date = some r → r.guest_id ≠ guestID →
      (hasPermissionToEnterRoom db guestID email date roomID = .ok true ↔
        ∃ g, findGuestRoomReservation db email r.id = some g ∧ g.room_id = roomID)) := by
  refine ⟨?_, ?_, ?_⟩
  · intro h
    simp [hasPermissionToEnterRoom, h]
  · intro r hf ho hnd
    have hmem : r ∈ db.reservations := List.mem_of_find?_eq_some hf
    have hbyid : findReservationById db r.id = some r := find?_id_of_nodup _ r hmem hnd
    simp only [hasPermissionToEnterRoom, hf]
    rw [if_pos (by simp [ho])]
    simp only [allRoomsInReservation, getReservation, hbyid]
    rfl
  · intro r hf hne
    simp only [hasPermissionToEnterRoom, hf]
    rw [if_neg (by simp [hne])]
    cases hg : findGuestRoomReservation db email r.id with
    | none => simp [roomShared, hg, Except.map]
    | some g => simp [roomShared, hg, Except.map]

/-- Witness for C2 on the reservation of the specification's example: the
owner enters room 2 but not room 99, the grantee of room 2 enters room 2,
and outside the window the check fails as not checked in. -/
theorem hasPermissionToEnterRoom_spec_witness :
    hasPermissionToEnterRoom
      { reservations := [{ id := "r1", guest_id := "g1", check_in := 0, check_out := 10, rooms := [⟨1⟩, ⟨2⟩, ⟨3⟩] }], grants := [{ email := "e2", reservation_id := "r1", room_id := 2 }] }
      "g1" "x" 5 2 = .ok true ∧
    hasPermissionToEnterRoom
      { reservations := [{ id := "r1", guest_id := "g1", check_in := 0, check_out := 10, rooms := [⟨1⟩, ⟨2⟩, ⟨3⟩] }], grants := [{ email := "e2", reservation_id := "r1", room_id := 2 }] }
      "g1" "x" 5 99 = .ok false ∧
    hasPermissionToEnterRoom
      { reservations := [{ id := "r1", guest_id := "g1", check_in := 0, check_out := 10, rooms := [⟨1⟩, ⟨2⟩, ⟨3⟩] }], grants := [{ email := "e2", reservation_id := "r1", room_id := 2 }] }
      "g2" "e2" 5 2 = .ok true ∧
    hasPermissionToEnterRoom
      { reservations := [{ id := "r1", guest_id := "g1", check_in := 0, check_out := 10, rooms := [⟨1⟩, ⟨2⟩, ⟨3⟩] }], grants := [{ email := "e2", reservation_id := "r1", room_id := 2 }] }
      "g9" "nobody" 50 1 = .error (.badRequest "Not checked in.") := by
  refine ⟨?_, ?_, ?_, ?_⟩
  · exact ((hasPermissionToEnterRoom_spec { reservations := [{ id := "r1", guest_id := "g1", check_in := 0, check_out := 10, rooms := [⟨1⟩, ⟨2⟩, ⟨3⟩] }], grants := [{ email := "e2", reservation_id := "r1", room_id := 2 }] } "g1" "x" 5 2).2.1
      { id := "r1", guest_id := "g1", check_in := 0, check_out := 10, rooms := [⟨1⟩, ⟨2⟩, ⟨3⟩] } rfl rfl (by decide)).trans rfl
  · exact ((hasPermissionToEnterRoom_spec { reservations := [{ id := "r1", guest_id := "g1", check_in := 0, check_out := 10, rooms := [⟨1⟩, ⟨2⟩, ⟨3⟩] }], grants := [{ email := "e2", reservation_id := "r1", room_id := 2 }] } "g1" "x" 5 99).2.1
      { id := "r1", guest_id := "g1", check_in := 0, check_out := 10, rooms := [⟨1⟩, ⟨2⟩, ⟨3⟩] } rfl rfl (by decide)).trans rfl
  · exact ((hasPermissionToEnterRoom_spec { reservations := [{ id := "r1", guest_id := "g1", check_in := 0, check_out := 10, rooms := [⟨1⟩, ⟨2⟩, ⟨3⟩] }], grants := [{ email := "e2", reservation_id := "r1", room_id := 2 }] } "g2" "e2" 5 2).2.2
      { id := "r1", guest_id := "g1", check_in := 0, check_out := 10, rooms := [⟨1⟩, ⟨2⟩, ⟨3⟩] } rfl (by decide)).mpr
      ⟨{ email := "e2", reservation_id := "r1", room_id := 2 }, rfl, rfl⟩
  · exact (hasPermissionToEnterRoom_spec { reservations := [{ id := "r1", guest_id := "g1", check_in := 0, check_out := 10, rooms := [⟨1⟩, ⟨2⟩, ⟨3⟩] }], grants := [{ email := "e2", reservation_id := "r1", room_id := 2 }] } "g9" "nobody" 50 1).1 rfl

/-- C3: the actuation routes of app.ts publish on the channel only when the
three guards authenticated, in-room, checked-in all pass; a failure of the
first failing guard in that fixed order aborts the request with that
guard's client error and nothing is published. -/
theorem doorActuationRoute_guard_chain {α : Type} (isAuth isInRm isChk : α → Bool)
    (command : String) (req : α) :
    ((doorActuationRoute isAuth isInRm isChk command req).published ≠ [] →
      isAuth req = true ∧ isInRm req = true ∧ isChk req = true ∧
      doorActuationRoute isAuth isInRm isChk command req
        = { response := .ok "eyy", published := [("door", command)] }) ∧
    (isAuth req = false →
      doorActuationRoute isAuth isInRm isChk command req
        = { response := .error .unauthorized, published := [] }) ∧
    (isAuth req = true → isInRm req = false →
      doorActuationRoute isAuth isInRm isChk command req
        = { response := .error .notInRoom, published := [] }) ∧
    (isAuth req = true → isInRm req = true → isChk req = false →
      doorActuationRoute isAuth isInRm isChk command req
        = { response := .error .notCheckedIn, published := [] }) := by
  cases hA : isAuth req <;> cases hB : isInRm req <;> cases hC : isChk req <;>
    simp [doorActuationRoute, hA, hB, hC]

/-- Witness for C3: each guard failure yields its error with nothing
published, and with all guards passing the command is published. -/
theorem doorActuationRoute_guard_chain_witness :
    doorActuationRoute (fun _ : Unit => false) (fun _ => true) (fun _ => true) "lock" ()
      = { response := .error .unauthorized, published := [] } ∧
    doorActuationRoute (fun _ : Unit => true) (fun _ => false) (fun _ => true) "unlock" ()
      = { response := .error .notInRoom, published := [] } ∧
    doorActuationRoute (fun _ : Unit => true) (fun _ => true) (fun _ => false) "sound" ()
      = { response := .error .notCheckedIn, published := [] } ∧
    doorActuationRoute (fun _ : Unit => true) (fun _ => true) (fun _ => true) "lock" ()
      = { response := .ok "eyy", published := [("door", "lock")] } :=
  ⟨(doorActuationRoute_guard_chain _ _ _ "lock" ()).2.1 rfl,
   (doorActuationRoute_guard_chain _ _ _ "unlock" ()).2.2.1 rfl rfl,
   (doorActuationRoute_guard_chain _ _ _ "sound" ()).2.2.2 rfl rfl rfl,
   ((doorActuationRoute_guard_chain _ _ _ "lock" ()).1 (by decide)).2.2.2⟩

/-- C4: `getDoorLockInput` fails with the invalid-staff client error when no
staff record matches, and otherwise returns the payload with the staff ID,
the fixed placeholder room and national IDs, and the 300-window time code
of the concatenated triple rendered zero-padded to 6 digits. -/
theorem getDoorLockInput_spec (nowMs : Nat) (db : List Staff) (staffID : String) :
    (findStaffById db staffID = none →
      getDoorLockInput nowMs db staffID
        = .error (.badRequest "Request failed. Staff ID is invalid.")) ∧
    (∀ st, findStaffById db staffID = some st →
      getDoorLockInput nowMs db staffID = .ok {
        userID := staffID, roomID := "9999", nationalID := "1234567890123",
        secret := padStart
          (Nat.repr (generateTOTP nowMs (staffID ++ "9999" ++ "1234567890123") 300)) 6 '0' }) := by
  constructor
  · intro h
    simp [getDoorLockInput, h]
  · intro st h
    simp [getDoorLockInput, h]

/-- Witness for C4: the lookup fails on an empty staff table and succeeds
for staff "s1". -/
theorem getDoorLockInput_spec_witness :
    getDoorLockInput 1700000000000 ([] : List Staff) "s1"
      = .error (.badRequest "Request failed. Staff ID is invalid.") ∧
    getDoorLockInput 1700000000000 [{ id := "s1", password := "h" }] "s1" = .ok {
      userID := "s1", roomID := "9999", nationalID := "1234567890123",
      secret := padStart
        (Nat.repr (generateTOTP 1700000000000 ("s1" ++ "9999" ++ "1234567890123") 300)) 6 '0' } :=
  ⟨(getDoorLockInput_spec 1700000000000 [] "s1").1 rfl,
   (getDoorLockInput_spec 1700000000000 [{ id := "s1", password := "h" }] "s1").2
     { id := "s1", password := "h" } rfl⟩

/-- C5: `shareRoom` by a caller who is not the owning guest of the
reservation fails with the Forbidden error and leaves the grant store
unchanged; by the owner it succeeds, creates the Room Grant for the
(email, reservation, room) triple, and a subsequent permission check for
the grantee on that room succeeds. -/
theorem shareRoom_spec (db : RoomDB) (ownerID email reservationID : String) (roomID : Int)
    (r : Reservation) (hr : findReservationById db reservationID = some r) :
    (r.guest_id ≠ ownerID →
      shareRoom db ownerID email reservationID roomID =
        (.error (.forbidden "Can not share room. You did not make this reservation."), db)) ∧
    (r.guest_id = ownerID →
      shareRoom db ownerID email reservationID roomID =
        (.ok { email := email, reservation_id := reservationID, room_id := roomID },
          { db with grants := db.grants ++ [{ email := email, reservation_id := reservationID, room_id := roomID }] }) ∧
      ∀ (granteeID : String) (date : Int),
        findReservationIn { db with grants := db.grants ++ [{ email := email, reservation_id := reservationID, room_id := roomID }] } granteeID email date = some r →
        r.guest_id ≠ granteeID →
        findGuestRoomReservation db email reservationID = none →
        hasPermissionToEnterRoom { db with grants := db.grants ++ [{ email := email, reservation_id := reservationID, room_id := roomID }] } granteeID email date roomID = .ok true) := by
  have hid : r.id = reservationID := by simpa using List.find?_some hr
  constructor
  · intro hne
    simp [shareRoom, checkIsReservationOwner, hr, hne]
  · intro ho
    constructor
    · simp [shareRoom, checkIsReservationOwner, hr, ho]
    · intro granteeID date hfind hne hnog
      simp only [hasPermissionToEnterRoom, hfind]
      rw [if_neg (by simp [hne])]
      simp only [roomShared, findGuestRoomReservation, hid]
      rw [List.find?_append,
        show db.grants.find? (fun g => g.email == email && g.reservation_id == reservationID)
            = none from hnog]
      simp [Except.map]

/-- Witness for C5: the non-owner "g2" is refused, the owner "g1" creates
the grant for email "e2" on room 2, and the grantee then passes the
permission check for room 2. -/
theorem shareRoom_spec_witness :
    shareRoom { reservations := [{ id := "r1", guest_id := "g1", check_in := 0, check_out := 10, rooms := [⟨2⟩] }], grants := [] } "g2" "e2" "r1" 2
      = (.error (.forbidden "Can not share room. You did not make this reservation."),
         { reservations := [{ id := "r1", guest_id := "g1", check_in := 0, check_out := 10, rooms := [⟨2⟩] }], grants := [] }) ∧
    shareRoom { reservations := [{ id := "r1", guest_id := "g1", check_in := 0, check_out := 10, rooms := [⟨2⟩] }], grants := [] } "g1" "e2" "r1" 2
      = (.ok { email := "e2", reservation_id := "r1", room_id := 2 },
         { reservations := [{ id := "r1", guest_id := "g1", check_in := 0, check_out := 10, rooms := [⟨2⟩] }], grants := [] ++ [{ email := "e2", reservation_id := "r1", room_id := 2 }] }) ∧
    hasPermissionToEnterRoom { reservations := [{ id := "r1", guest_id := "g1", check_in := 0, check_out := 10, rooms := [⟨2⟩] }], grants := [] ++ [{ email := "e2", reservation_id := "r1", room_id := 2 }] } "g2" "e2" 5 2 = .ok true := by
  refine ⟨?_, ?_, ?_⟩
  · exact (shareRoom_spec { reservations := [{ id := "r1", guest_id := "g1", check_in := 0, check_out := 10, rooms := [⟨2⟩] }], grants := [] } "g2" "e2" "r1" 2
      { id := "r1", guest_id := "g1", check_in := 0, check_out := 10, rooms := [⟨2⟩] } rfl).1 (by decide)
  · exact ((shareRoom_spec { reservations := [{ id := "r1", guest_id := "g1", check_in := 0, check_out := 10, rooms := [⟨2⟩] }], grants := [] } "g1" "e2" "r1" 2
      { id := "r1", guest_id := "g1", check_in := 0, check_out := 10, rooms := [⟨2⟩] } rfl).2 rfl).1
  · exact ((shareRoom_spec { reservations := [{ id := "r1", guest_id := "g1", check_in := 0, check_out := 10, rooms := [⟨2⟩] }], grants := [] } "g1" "e2" "r1" 2
      { id := "r1", guest_id := "g1", check_in := 0, check_out := 10, rooms := [⟨2⟩] } rfl).2 rfl).2 "g2" 5 rfl (by decide) rfl

/-- C6: encode followed by decode returns the four payload fields exactly
whenever no field contains the pipe delimiter, and a field containing the
delimiter breaks the round-trip. -/
theorem encode_decode_roundtrip :
    (∀ t : DoorLockCodeEncodeInput,
      '|' ∉ t.userID.data → '|' ∉ t.roomID.data → '|' ∉ t.nationalID.data →
      '|' ∉ t.secret.data → decode (encode t) = .ok t) ∧
    decode (encode { userID := "a|b", roomID := "r", nationalID := "n", secret := "c" })
      ≠ .ok { userID := "a|b", roomID := "r", nationalID := "n", secret := "c" } := by
  constructor
  · intro t hu hr hn hs
    exact decode_encode t hu hr hn hs
  · decide

/-- Witness for C6: the round-trip holds at a delimiter-free payload. -/
theorem encode_decode_roundtrip_witness :
    decode (encode { userID := "s1", roomID := "9999", nationalID := "1234567890123", secret := "123456" })
      = .ok { userID := "s1", roomID := "9999", nationalID := "1234567890123", secret := "123456" } :=
  encode_decode_roundtrip.1
    { userID := "s1", roomID := "9999", nationalID := "1234567890123", secret := "123456" }
    (by decide) (by decide) (by decide) (by decide)

set_option maxRecDepth 10000 in
/-- C8: `verify` accepts a payload exactly when it decodes and its code
field equals the code recomputed for the current instant only (window
offset 0); in particular the payload issued by `getDoorLockInput` for the
300-window future counter is rejected by `verify` at the instant of
issuance. -/
theorem verify_current_instant_only :
    (∀ (nowMs : Nat) (encoded : String),
      verify nowMs encoded = true ↔
        ∃ p, decode encoded = .ok p ∧
          padStart (Nat.repr (generateTOTP nowMs (p.userID ++ p.roomID ++ p.nationalID) 0)) 6 '0'
            = p.secret) ∧
    (getDoorLockInput 1700000000000 [{ id := "s1", password := "h" }] "s1"
        = .ok { userID := "s1", roomID := "9999", nationalID := "1234567890123", secret := "388945" } ∧
      verify 1700000000000
        (encode { userID := "s1", roomID := "9999", nationalID := "1234567890123", secret := "388945" })
        = false) := by
  refine ⟨?_, ?_, ?_⟩
  · intro nowMs encoded
    cases hd : decode encoded with
    | error e => simp [verify, hd]
    | ok p => simp [verify, hd]
  · decide
  · decide

/-- C9: the GET /door/generate handler returns the same encoded payload for
any two supplied roomID query parameters, the same subject and instant:
the issued roomID field is the fixed placeholder regardless of the query. -/
theorem generateRoute_ignores_roomID (nowMs : Nat) (db : List Staff)
    (userID roomID1 roomID2 : String) :
    generateRoute nowMs db userID roomID1 = generateRoute nowMs db userID roomID2 := rfl

/-- C10: `shareRoom` with a reservation identifier that names no existing
reservation fails with the bad-request error of `checkIsReservationOwner`,
not with Forbidden, and the grant store is unchanged. -/
theorem shareRoom_invalid_reservation (db : RoomDB) (ownerID email reservationID : String)
    (roomID : Int) (h : findReservationById db reservationID = none) :
    shareRoom db ownerID email reservationID roomID
      = (.error (.badRequest "Invalid reservation id."), db) := by
  simp [shareRoom, checkIsReservationOwner, h]

/-- Witness for C10 on the empty database. -/
theorem shareRoom_invalid_reservation_witness :
    shareRoom { reservations := [], grants := [] } "g" "e" "r1" 2
      = (.error (.badRequest "Invalid reservation id."), { reservations := [], grants := [] }) :=
  shareRoom_invalid_reservation { reservations := [], grants := [] } "g" "e" "r1" 2 rfl
